import Mathlib

set_option autoImplicit false

/-!
Shallow embedding of the chatbot-api gateway (FastAPI chat-completion routes,
model adapter factory, Google Gemini adapter, auth middleware, and the Cognito
custom-auth lambda handlers), together with theorems settling the frozen
claims about the natural-language specification.

Each definition is translated from the Python source file named in its doc
comment.  Machine integers are modelled as `Int`; Python dicts with string
keys are modelled as association lists; functions that may raise are modelled
with `Except`; `None`-able values with `Option`.
-/

namespace ChatbotApi

/-! ## Streaming frames (src/api/routes/chat.py, `_stream_chat_completion`) -/

/-- One server-sent frame produced by `_stream_chat_completion` in
src/api/routes/chat.py.  `initial` is the first chunk
(`delta={"role":"assistant","content":""}`, `finish_reason=None`);
`delta` is a content chunk (`delta={"content": s}`, `finish_reason=None`);
`stopFrame` is the final chunk (`delta={}`, `finish_reason="stop"`);
`errorFrame` is the except-branch chunk (an `error` object instead of
`choices`); `done` is the literal `data: [DONE]` sentinel line. -/
inductive StreamFrame where
  | initial : StreamFrame
  | delta (content : String) : StreamFrame
  | stopFrame : StreamFrame
  | errorFrame : StreamFrame
  | done : StreamFrame
deriving DecidableEq, Repr

/-- Behaviour of one run of `adapter.chat_completion_stream(chat_request)` as
observed by the consumer: the fragments it yields, in order, and whether the
iterator then raises an exception (instead of ending normally). -/
structure AdapterStream where
  fragments : List String
  raises : Bool
deriving DecidableEq, Repr

/-- Frames emitted by the body of the `try` block of `_stream_chat_completion`
while iterating the adapter stream, together with the control transfer at the
end: each yielded fragment becomes one content-delta frame; normal exhaustion
of the iterator reaches the final-chunk code (stop frame then `[DONE]`); an
exception raised by the iterator transfers to the `except` branch (error frame
then `[DONE]`). -/
def streamLoop : List String → Bool → List StreamFrame
  | [], true => [StreamFrame.errorFrame, StreamFrame.done]
  | [], false => [StreamFrame.stopFrame, StreamFrame.done]
  | f :: rest, raises => StreamFrame.delta f :: streamLoop rest raises

/-- Full frame sequence of `_stream_chat_completion` (src/api/routes/chat.py
lines 133-210): the initial assistant-role chunk is yielded first, then the
loop over the adapter stream runs under the `try`/`except`. -/
def streamChatCompletion (s : AdapterStream) : List StreamFrame :=
  StreamFrame.initial :: streamLoop s.fragments s.raises

/-! ## Cognito custom-auth lambda handlers (lambdas/auth) -/

/-- Request portion of a VerifyAuthChallenge event
(lambdas/auth/verify_auth.py): `privateChallengeParameters` is a string dict
(modelled as an association list) and `challengeAnswer` may be absent. -/
structure VerifyEvent where
  privateChallengeParameters : List (String × String)
  challengeAnswer : Option String
deriving DecidableEq, Repr

/-- Handler of lambdas/auth/verify_auth.py, returning the `answerCorrect`
field it stores into `event["response"]`.  `expected_code` is
`private_params.get("code", "")`; `provided_code` is
`request.get("challengeAnswer", "")`; an empty (falsy) expected or provided
code short-circuits to `False`; otherwise the result is exact string
equality. -/
def verifyAuthHandler (e : VerifyEvent) : Bool :=
  let expected_code := (e.privateChallengeParameters.lookup "code").getD ""
  let provided_code := e.challengeAnswer.getD ""
  if expected_code = "" then false
  else if provided_code = "" then false
  else expected_code = provided_code

/-- One entry of `event["request"]["session"]` as read by
lambdas/auth/define_auth.py: both fields are read with `.get`, so either may
be absent. -/
structure SessionEntry where
  challengeName : Option String
  challengeResult : Option Bool
deriving DecidableEq, Repr

/-- Response fields written by lambdas/auth/define_auth.py.  In the
issue-tokens branch the handler never writes `challengeName`, so it stays
absent there. -/
structure DefineResponse where
  challengeName : Option String
  issueTokens : Bool
  failAuthentication : Bool
deriving DecidableEq, Repr

/-- Predicate of the loop body in define_auth.py: the session entry is a
`CUSTOM_CHALLENGE` whose `challengeResult` compared equal to `True`. -/
def isSuccessfulCustomChallenge (s : SessionEntry) : Bool :=
  s.challengeName = some "CUSTOM_CHALLENGE" && s.challengeResult = some true

/-- Handler of lambdas/auth/define_auth.py.  It scans the session for a
successful `CUSTOM_CHALLENGE` entry and returns `issueTokens=True` on the
first hit; otherwise it starts a new `CUSTOM_CHALLENGE` round.  The guard
`if session and len(session) > 0` only skips the scan for an empty session,
which scans to the same result. -/
def defineAuthHandler (session : List SessionEntry) : DefineResponse :=
  if session.any isSuccessfulCustomChallenge then
    { challengeName := none, issueTokens := true, failAuthentication := false }
  else
    { challengeName := some "CUSTOM_CHALLENGE"
      issueTokens := false
      failAuthentication := false }

/-! ## Request validation and gateway dispatch
(src/api/models.py `ChatCompletionRequest`, src/api/routes/chat.py
`create_chat_completion`) -/

/-- ChatMessage of src/models/base.py: plain role and content strings with no
further pydantic constraints. -/
structure ChatMessage where
  role : String
  content : String
deriving DecidableEq, Repr

/-- Wire-level body of a `POST /chat/completions` request before pydantic
validation (src/api/models.py `ChatCompletionRequest`).  `temperature` is a
float; the claims only compare it against 0 and 2, so it is modelled exactly
as a rational. -/
structure RawChatCompletionRequest where
  messages : List ChatMessage
  model_id : String
  max_tokens : Int := 2048
  temperature : Rat := Rat.mk' 7 10
  stream : Bool := false
deriving DecidableEq, Repr

/-- Pydantic validation faults for `ChatCompletionRequest`: `max_tokens` has
`ge=1, le=8192` and `temperature` has `ge=0.0, le=2.0`.  The `messages` field
is only declared required, with no constraint on its contents. -/
inductive ValidationFault where
  | maxTokensTooSmall : ValidationFault
  | maxTokensTooLarge : ValidationFault
  | temperatureTooSmall : ValidationFault
  | temperatureTooLarge : ValidationFault
deriving DecidableEq, Repr

/-- Field validation performed by pydantic on `ChatCompletionRequest`
(src/api/models.py lines 9-34) before FastAPI ever invokes the route handler;
a fault is answered with a 422 client error. -/
def validateChatCompletionRequest (r : RawChatCompletionRequest) :
    Except ValidationFault RawChatCompletionRequest :=
  if r.max_tokens < 1 then Except.error ValidationFault.maxTokensTooSmall
  else if r.max_tokens > 8192 then Except.error ValidationFault.maxTokensTooLarge
  else if r.temperature < 0 then Except.error ValidationFault.temperatureTooSmall
  else if r.temperature > 2 then Except.error ValidationFault.temperatureTooLarge
  else Except.ok r

/-- Internal ChatRequest of src/models/base.py, built by
`create_chat_completion` from the validated API request. -/
structure ChatRequest where
  messages : List ChatMessage
  model_id : String
  max_tokens : Int := 2048
  temperature : Rat := Rat.mk' 7 10
  stream : Bool := false
deriving DecidableEq, Repr

/-- Outcome of one call to the `/chat/completions` route, as far as adapter
dispatch is concerned.  `dispatched` means the route invoked
`adapter.chat_completion` or `adapter.chat_completion_stream` (both branches
hand the request to the resolved adapter) on the adapter instance identified
by the `Nat` with the given internal request. -/
inductive GatewayOutcome where
  | validationFault (e : ValidationFault) : GatewayOutcome
  | modelNotFound : GatewayOutcome
  | dispatched (adapter : Nat) (req : ChatRequest) : GatewayOutcome
deriving DecidableEq, Repr

/-- Endpoint behaviour of `create_chat_completion` (src/api/routes/chat.py
lines 26-69) composed with pydantic validation: FastAPI rejects a request
failing field validation with a client error before the handler runs; the
handler resolves an adapter via the factory (404 when absent), builds the
internal `ChatRequest` from the same field values, and forwards it to the
adapter (streaming and non-streaming branches alike).  `resolve` abstracts
`get_adapter_factory().get_adapter`, returning the identity of the resolved
adapter instance. -/
def handleChatCompletion (resolve : String → Option Nat)
    (raw : RawChatCompletionRequest) : GatewayOutcome :=
  match validateChatCompletionRequest raw with
  | Except.error e => GatewayOutcome.validationFault e
  | Except.ok r =>
    match resolve r.model_id with
    | none => GatewayOutcome.modelNotFound
    | some a =>
      GatewayOutcome.dispatched a
        { messages := r.messages
          model_id := r.model_id
          max_tokens := r.max_tokens
          temperature := r.temperature
          stream := r.stream }

/-! ## Google Gemini adapter, non-streaming path
(src/models/google_adapter.py `GoogleAdapter.chat_completion`) -/

/-- One element of a Gemini `parts` array; only the presence and value of its
`text` key matter to the adapter. -/
structure GeminiPart where
  text : Option String
deriving DecidableEq, Repr

/-- Gemini candidate `content` object; its `parts` key may be absent. -/
structure GeminiContent where
  parts : Option (List GeminiPart)
deriving DecidableEq, Repr

/-- Gemini candidate; `content` and `finishReason` keys may be absent. -/
structure GeminiCandidate where
  content : Option GeminiContent
  finishReason : Option String
deriving DecidableEq, Repr

/-- Gemini `usageMetadata` block; each count is read with `.get(name, 0)`. -/
structure GeminiUsageMetadata where
  promptTokenCount : Option Int
  candidatesTokenCount : Option Int
  totalTokenCount : Option Int
deriving DecidableEq, Repr

/-- Body of a Gemini `generateContent` response as read by the adapter:
`candidates` and `usageMetadata` keys may be absent. -/
structure GeminiResponse where
  candidates : Option (List GeminiCandidate)
  usageMetadata : Option GeminiUsageMetadata
deriving DecidableEq, Repr

/-- The distinct `ValueError` messages `GoogleAdapter.chat_completion` can
raise while extracting the response content. -/
inductive GeminiValueError where
  | noCandidates : GeminiValueError
  | invalidCandidateFormat : GeminiValueError
  | noTextInParts : GeminiValueError
deriving DecidableEq, Repr

/-- Internal ChatResponse of src/models/base.py; `usage` is a
`Dict[str, int]`, modelled as an association list (empty when the adapter
leaves it at `{}`). -/
structure ChatResponse where
  content : String
  model_id : String
  usage : List (String × Int) := []
  finish_reason : String := "stop"
deriving DecidableEq, Repr

/-- Content extraction of `GoogleAdapter.chat_completion`
(src/models/google_adapter.py lines 98-119): absent or empty (falsy)
`candidates` raises; a candidate without `content` raises; a `content`
without a `parts` key yields the empty string; a present `parts` that is
empty (falsy) or whose first element lacks a `text` key raises; otherwise the
text of the first part is the content. -/
def geminiExtractContent (data : GeminiResponse) : Except GeminiValueError String :=
  match data.candidates with
  | none => Except.error GeminiValueError.noCandidates
  | some [] => Except.error GeminiValueError.noCandidates
  | some (candidate :: _) =>
    match candidate.content with
    | none => Except.error GeminiValueError.invalidCandidateFormat
    | some content =>
      match content.parts with
      | none => Except.ok ""
      | some [] => Except.error GeminiValueError.noTextInParts
      | some (p :: _) =>
        match p.text with
        | none => Except.error GeminiValueError.noTextInParts
        | some t => Except.ok t

/-- Python `str.lower()` on the ASCII strings of the Gemini finish-reason
vocabulary: each character is lowercased individually. -/
def pyLower (s : String) : String :=
  String.mk (s.data.map Char.toLower)

/-- Finish-reason translation of `GoogleAdapter.chat_completion`
(src/models/google_adapter.py lines 120-128):
`candidate.get("finishReason", "STOP").lower()`, then `"stop"` stays
`"stop"`, `"max_tokens"` becomes `"length"`, and anything else falls back to
`"stop"`. -/
def geminiMapFinishReason (finishReason : Option String) : String :=
  let fr := pyLower (finishReason.getD "STOP")
  if fr = "stop" then "stop"
  else if fr = "max_tokens" then "length"
  else "stop"

/-- Usage extraction of `GoogleAdapter.chat_completion`
(src/models/google_adapter.py lines 130-138): the dict stays `{}` when
`usageMetadata` is absent, and otherwise carries the three counts read with
`.get(name, 0)` — `total_tokens` is the `totalTokenCount` reported by the provider, not a
computed sum. -/
def geminiExtractUsage (meta : Option GeminiUsageMetadata) : List (String × Int) :=
  match meta with
  | none => []
  | some m =>
    [("prompt_tokens", m.promptTokenCount.getD 0),
     ("completion_tokens", m.candidatesTokenCount.getD 0),
     ("total_tokens", m.totalTokenCount.getD 0)]

/-- Finish reason of the first candidate as read by
`GoogleAdapter.chat_completion` (it indexes `data["candidates"][0]` and then
uses `candidate.get("finishReason", ...)`); absent candidates never reach
this read because content extraction raises first. -/
def geminiFirstFinishReason (data : GeminiResponse) : Option String :=
  match data.candidates with
  | some (candidate :: _) => candidate.finishReason
  | _ => none

/-- Response translation of `GoogleAdapter.chat_completion`
(src/models/google_adapter.py lines 93-145), starting from the decoded JSON
body of a 2xx provider response: extract content (possibly raising a
`ValueError`), map the finish reason of the first candidate, extract usage, and
assemble the internal `ChatResponse`. -/
def googleChatCompletion (model_id : String) (data : GeminiResponse) :
    Except GeminiValueError ChatResponse :=
  match geminiExtractContent data with
  | Except.error e => Except.error e
  | Except.ok content =>
    Except.ok
      { content := content
        model_id := model_id
        usage := geminiExtractUsage data.usageMetadata
        finish_reason := geminiMapFinishReason (geminiFirstFinishReason data) }

/-- Usage block of the API response assembled by `create_chat_completion`
(src/api/routes/chat.py lines 96-100): each field is
`response.usage.get(name, 0)`. -/
structure ApiUsage where
  prompt_tokens : Int
  completion_tokens : Int
  total_tokens : Int
deriving DecidableEq, Repr

/-- Conversion done by the route of an internal `ChatResponse.usage` dict into the
API `Usage` model (src/api/routes/chat.py lines 96-100). -/
def routeUsage (usage : List (String × Int)) : ApiUsage :=
  { prompt_tokens := (usage.lookup "prompt_tokens").getD 0
    completion_tokens := (usage.lookup "completion_tokens").getD 0
    total_tokens := (usage.lookup "total_tokens").getD 0 }

/-! ## Model registry and adapter factory
(src/config/models.py, src/models/adapter_factory.py) -/

/-- ClientType enum of src/config/models.py. -/
inductive ClientType where
  | openai_compatible : ClientType
  | anthropic : ClientType
  | google : ClientType
deriving DecidableEq, Repr

/-- ModelConfig of src/config/models.py (the fields the factory reads). -/
structure ModelConfig where
  name : String
  model_id : String
  client_type : ClientType
  api_base : Option String := none
  api_key_env : Option String := none
  enabled : Bool := true
  provider : String
  is_local : Bool := false
deriving DecidableEq, Repr

/-- Lookup of `ModelRegistry.get_model` (src/config/models.py line 120): the
registry is a dict keyed by `model_id`, modelled as a list with lookup by
that key. -/
def getModel (registry : List ModelConfig) (model_id : String) : Option ModelConfig :=
  registry.find? (fun cfg => cfg.model_id = model_id)

/-- Cache key computed by `AdapterFactory.get_adapter`
(src/models/adapter_factory.py line 30):
the f-string joining provider and api_base-or-default with a colon. -/
def adapterKey (cfg : ModelConfig) : String :=
  cfg.provider ++ ":" ++ cfg.api_base.getD "default"

/-- Python exception kinds that can escape adapter construction. -/
inductive PyException where
  | typeError : PyException
deriving DecidableEq, Repr

/-- Construction of `OpenAIAdapter` (src/models/openai_adapter.py lines
10-28).  The factory passes `adapter_config = {"api_base": model_config.api_base,
"api_key_env": model_config.api_key_env}`, so `config.get("api_base",
"https://api.openai.com/v1")` returns the stored value even when it is
`None` (the key is present); `httpx.AsyncClient` then raises `TypeError` for
a `None` `base_url`.  A missing API key does not fail construction (the
bearer header is simply omitted). -/
def openAIAdapterInit (api_base : Option String) : Except PyException Unit :=
  match api_base with
  | some _ => Except.ok ()
  | none => Except.error PyException.typeError

/-- Construction of `GoogleAdapter` (src/models/google_adapter.py lines
18-33): it reads the optional `settings.google_api_key` (absent means the
key query parameter is omitted) and builds an `httpx` client with a constant
base URL, so it never raises. -/
def googleAdapterInit (_api_key_env : Option String) : Except PyException Unit :=
  Except.ok ()

/-- Mutable state of an `AdapterFactory`: the `self._adapters` cache mapping
cache key to the cached adapter instance, plus a counter allocating fresh
instance identities (two distinct `Nat` identities model two distinct Python
objects, so identity equality models reference equality). -/
structure FactoryState where
  adapters : List (String × Nat) := []
  nextId : Nat := 0
deriving DecidableEq, Repr

/-- Helper allocating, caching and returning a fresh adapter instance
(src/models/adapter_factory.py lines 75-79). -/
def cacheNewAdapter (st : FactoryState) (key : String) : Option Nat × FactoryState :=
  (some st.nextId,
   { adapters := (key, st.nextId) :: st.adapters, nextId := st.nextId + 1 })

/-- Behaviour of `AdapterFactory.get_adapter` (src/models/adapter_factory.py
lines 20-79).  Absent or disabled config returns `None`; a cache hit returns
the cached instance; otherwise the branch on `client_type` constructs the
adapter — only the Google branch wraps construction in `try`/`except`, so an
exception from `OpenAIAdapter(...)` propagates out of the method (the
`Except.error` result), while a Google construction failure is logged and
returned as `None`; the Anthropic branch is unimplemented and returns
`None`. -/
def getAdapter (registry : List ModelConfig) (st : FactoryState)
    (model_id : String) : Except PyException (Option Nat × FactoryState) :=
  match getModel registry model_id with
  | none => Except.ok (none, st)
  | some cfg =>
    if cfg.enabled = false then Except.ok (none, st)
    else
      let key := adapterKey cfg
      match st.adapters.lookup key with
      | some a => Except.ok (some a, st)
      | none =>
        match cfg.client_type with
        | ClientType.openai_compatible =>
          match openAIAdapterInit cfg.api_base with
          | Except.error e => Except.error e
          | Except.ok _ => Except.ok (cacheNewAdapter st key)
        | ClientType.anthropic => Except.ok (none, st)
        | ClientType.google =>
          match googleAdapterInit cfg.api_key_env with
          | Except.error _ => Except.ok (none, st)
          | Except.ok _ => Except.ok (cacheNewAdapter st key)

/-! ## Authentication middleware and token blacklist
(src/auth/middleware.py, src/auth/auth0_client.py, src/api/routes/auth.py) -/

/-- Claims carried by an internal JWT of this service, together with the data
needed to model `jose.jwt.decode`: `raw` is the serialized token string (the
value the blacklist stores), `signingKey` the key the token was signed with,
and `exp` an absolute expiry timestamp. -/
structure SessionToken where
  raw : String
  signingKey : String
  exp : Int
  aud : String
  iss : String
  sub : String
  email : String
  role : String
deriving DecidableEq, Repr

/-- Distinct reasons `jwt.decode` can reject a token; all are `JWTError`
subclasses in the source. -/
inductive JwtFault where
  | invalidSignature : JwtFault
  | expired : JwtFault
  | invalidAudience : JwtFault
  | invalidIssuer : JwtFault
deriving DecidableEq, Repr

/-- Verification performed by `verify_internal_jwt`
(src/auth/auth0_client.py lines 247-259 and identically
src/auth/cognito_client.py lines 268-280): `jwt.decode` checks the signature
against `settings.jwt_secret_key`, the expiry against the current time, and
the fixed audience `"chatbot-api"` and issuer `"chatbot-wrapper-demo"`;
success returns the claim payload. -/
def verifyInternalJwt (serverSecret : String) (now : Int) (t : SessionToken) :
    Except JwtFault SessionToken :=
  if t.signingKey ≠ serverSecret then Except.error JwtFault.invalidSignature
  else if t.exp ≤ now then Except.error JwtFault.expired
  else if t.aud ≠ "chatbot-api" then Except.error JwtFault.invalidAudience
  else if t.iss ≠ "chatbot-wrapper-demo" then Except.error JwtFault.invalidIssuer
  else Except.ok t

/-- UserInfo fields materialized by the middleware from a verified payload. -/
structure AuthUserInfo where
  user_id : String
  email : String
  role : String
deriving DecidableEq, Repr

/-- The single error kind `_authenticate_request` raises: every failure is
collapsed into an `AuthenticationError` (HTTP 401) with a generic detail. -/
inductive AuthFailure where
  | authenticationError : AuthFailure
deriving DecidableEq, Repr

/-- Behaviour of `AuthenticationMiddleware._authenticate_request`
(src/auth/middleware.py lines 76-108) on a request carrying a bearer token.
The middleware calls `verify_internal_jwt` and wraps any exception into one
generic `AuthenticationError`.  The process-wide `token_blacklist` (same
file, lines 232-254), populated by the logout route
(src/api/routes/auth.py line 274), is passed here to state claims about it,
but the source never consults it during authentication — note the parameter
is unused. -/
def authenticateRequest (serverSecret : String) (now : Int)
    (_blacklist : List String) (t : SessionToken) :
    Except AuthFailure AuthUserInfo :=
  match verifyInternalJwt serverSecret now t with
  | Except.ok payload =>
    Except.ok { user_id := payload.sub, email := payload.email, role := payload.role }
  | Except.error _ => Except.error AuthFailure.authenticationError

/-- Effect of `POST /auth/logout` (src/api/routes/auth.py lines 268-274) on
the blacklist: the presented bearer token string is added via
`token_blacklist.blacklist_token`. -/
def logoutBlacklist (blacklist : List String) (tokenRaw : String) : List String :=
  tokenRaw :: blacklist

/-! ## Helper lemmas -/

/-- Closed form of the streaming loop: the yielded fragments become delta
frames in order, and the tail depends on whether the adapter stream raised. -/
theorem streamLoop_eq (l : List String) (r : Bool) :
    streamLoop l r =
      l.map StreamFrame.delta ++
        (if r then [StreamFrame.errorFrame, StreamFrame.done]
         else [StreamFrame.stopFrame, StreamFrame.done]) := by
  induction l with
  | nil => cases r <;> rfl
  | cons f rest ih => simp [streamLoop, ih]

/-- Every finish reason produced by the Gemini mapping is the string `stop`
or the string `length`. -/
theorem geminiMapFinishReason_cases (fr : Option String) :
    geminiMapFinishReason fr = "stop" ∨ geminiMapFinishReason fr = "length" := by
  unfold geminiMapFinishReason
  dsimp only
  split
  · exact Or.inl rfl
  · split
    · exact Or.inr rfl
    · exact Or.inl rfl

/-- A successful Gemini completion carries the extracted usage dict and the
mapped finish reason of the first candidate, and its content comes from
`geminiExtractContent`. -/
theorem googleChatCompletion_ok (model_id : String) (data : GeminiResponse)
    (resp : ChatResponse)
    (h : googleChatCompletion model_id data = Except.ok resp) :
    geminiExtractContent data = Except.ok resp.content ∧
    resp.model_id = model_id ∧
    resp.usage = geminiExtractUsage data.usageMetadata ∧
    (resp.finish_reason = "stop" ∨ resp.finish_reason = "length") := by
  unfold googleChatCompletion at h
  split at h
  · cases h
  · rename_i content hc
    simp only [Except.ok.injEq] at h
    subst h
    exact ⟨hc, rfl, rfl, geminiMapFinishReason_cases _⟩

/-- Evaluation of the route usage conversion on the dict built by the Gemini
adapter. -/
theorem routeUsage_geminiExtractUsage (meta : Option GeminiUsageMetadata) :
    routeUsage (geminiExtractUsage meta) =
      match meta with
      | none => { prompt_tokens := 0, completion_tokens := 0, total_tokens := 0 }
      | some m =>
        { prompt_tokens := m.promptTokenCount.getD 0
          completion_tokens := m.candidatesTokenCount.getD 0
          total_tokens := m.totalTokenCount.getD 0 } := by
  cases meta with
  | none => rfl
  | some m => simp [geminiExtractUsage, routeUsage, List.lookup]

/-- Successful pydantic validation is the identity and certifies the field
bounds declared on `ChatCompletionRequest`. -/
theorem validateChatCompletionRequest_ok (raw r : RawChatCompletionRequest)
    (h : validateChatCompletionRequest raw = Except.ok r) :
    r = raw ∧ 1 ≤ raw.max_tokens ∧ raw.max_tokens ≤ 8192 ∧
      0 ≤ raw.temperature ∧ raw.temperature ≤ 2 := by
  unfold validateChatCompletionRequest at h
  split at h
  · cases h
  · split at h
    · cases h
    · split at h
      · cases h
      · split at h
        · cases h
        · rename_i h1 h2 h3 h4
          cases h
          exact ⟨rfl, by omega, by omega, not_lt.mp h3, not_lt.mp h4⟩

/-- A request the gateway dispatched to an adapter passed pydantic validation
unchanged: the internal request repeats the raw field values and those
satisfy the declared bounds. -/
theorem handleChatCompletion_dispatched (resolve : String → Option Nat)
    (raw : RawChatCompletionRequest) (a : Nat) (req : ChatRequest)
    (h : handleChatCompletion resolve raw = GatewayOutcome.dispatched a req) :
    req.messages = raw.messages ∧ req.max_tokens = raw.max_tokens ∧
      req.temperature = raw.temperature ∧
      1 ≤ raw.max_tokens ∧ raw.max_tokens ≤ 8192 ∧
      0 ≤ raw.temperature ∧ raw.temperature ≤ 2 := by
  unfold handleChatCompletion at h
  split at h
  · cases h
  · rename_i r hv
    obtain ⟨hr, hb⟩ := validateChatCompletionRequest_ok raw r hv
    subst hr
    split at h
    · cases h
    · simp only [GatewayOutcome.dispatched.injEq] at h
      obtain ⟨_, hreq⟩ := h
      subst hreq
      exact ⟨rfl, rfl, rfl, hb.1, hb.2.1, hb.2.2.1, hb.2.2.2⟩

/-! ## Claim C1 — streaming frame shape -/

/-- Claim C1 counterexample: when the adapter stream raises before yielding
any fragment, the emitted frames are the initial frame, then an error frame,
then the `[DONE]` sentinel — there is no terminal frame with
`finish_reason="stop"`, so the claimed shape does not hold on the failure
path. -/
theorem C1_counterexample :
    streamChatCompletion { fragments := [], raises := true } =
      [StreamFrame.initial, StreamFrame.errorFrame, StreamFrame.done] ∧
    streamChatCompletion { fragments := [], raises := true } ≠
      [StreamFrame.initial, StreamFrame.stopFrame, StreamFrame.done] := by
  exact ⟨rfl, by decide⟩

/-- Claim C1, amended: on a stream that ends normally the gateway emits
exactly one initial frame, one delta frame per adapter fragment in order, one
terminal frame with `finish_reason="stop"`, and the `[DONE]` sentinel; when
the adapter raises partway, the frames emitted so far are followed by exactly
one error frame (instead of the stop frame) and the same `[DONE]` sentinel,
so the channel is always terminated cleanly. -/
theorem C1_stream_frame_shape :
    (∀ s : AdapterStream, s.raises = false →
        streamChatCompletion s =
          StreamFrame.initial :: s.fragments.map StreamFrame.delta ++
            [StreamFrame.stopFrame, StreamFrame.done]) ∧
    (∀ s : AdapterStream, s.raises = true →
        streamChatCompletion s =
          StreamFrame.initial :: s.fragments.map StreamFrame.delta ++
            [StreamFrame.errorFrame, StreamFrame.done]) := by
  constructor
  · intro s hs
    unfold streamChatCompletion
    rw [streamLoop_eq, hs]
    rfl
  · intro s hs
    unfold streamChatCompletion
    rw [streamLoop_eq, hs]
    rfl

/-- Witness for C1: a clean two-fragment stream produces the claimed shape,
and the same stream interrupted by an exception ends in an error frame plus
the sentinel. -/
theorem C1_witness :
    streamChatCompletion { fragments := ["Hel", "lo"], raises := false } =
      [StreamFrame.initial, StreamFrame.delta "Hel", StreamFrame.delta "lo",
       StreamFrame.stopFrame, StreamFrame.done] ∧
    streamChatCompletion { fragments := ["Hel"], raises := true } =
      [StreamFrame.initial, StreamFrame.delta "Hel",
       StreamFrame.errorFrame, StreamFrame.done] := by
  exact ⟨C1_stream_frame_shape.1 { fragments := ["Hel", "lo"], raises := false } rfl,
         C1_stream_frame_shape.2 { fragments := ["Hel"], raises := true } rfl⟩

/-! ## Claim C6 — Gemini finish-reason mapping -/

/-- Claim C6 counterexample: the lowercase provider value `max_tokens` is
neither `STOP` nor `MAX_TOKENS`, yet it maps to `length`, not `stop` — the
source lowercases the finish reason first, so the mapping is
case-insensitive rather than sending every other value to `stop`. -/
theorem C6_counterexample :
    geminiMapFinishReason (some "max_tokens") = "length" ∧
    "max_tokens" ≠ "STOP" ∧ "max_tokens" ≠ "MAX_TOKENS" ∧
    geminiMapFinishReason (some "max_tokens") ≠ "stop" := by
  refine ⟨rfl, by decide, by decide, by decide⟩

/-- Claim C6, amended: the mapping lowercases the provider finish reason
first; `STOP` maps to `stop`, `MAX_TOKENS` maps to `length`, a missing finish
reason maps to `stop`, any value whose lowercasing is `max_tokens` maps to
`length`, every other value maps to `stop`, and a successful completion never
carries a finish reason other than `stop` or `length`. -/
theorem C6_finish_reason_mapping :
    geminiMapFinishReason (some "STOP") = "stop" ∧
    geminiMapFinishReason (some "MAX_TOKENS") = "length" ∧
    geminiMapFinishReason none = "stop" ∧
    (∀ s : String, pyLower s = "max_tokens" →
        geminiMapFinishReason (some s) = "length") ∧
    (∀ s : String, pyLower s ≠ "max_tokens" →
        geminiMapFinishReason (some s) = "stop") ∧
    (∀ (model_id : String) (data : GeminiResponse) (resp : ChatResponse),
        googleChatCompletion model_id data = Except.ok resp →
        resp.finish_reason = "stop" ∨ resp.finish_reason = "length") := by
  refine ⟨rfl, rfl, rfl, ?_, ?_, ?_⟩
  · intro s hs
    unfold geminiMapFinishReason
    simp only [Option.getD_some, hs]
    rfl
  · intro s hs
    unfold geminiMapFinishReason
    simp only [Option.getD_some]
    by_cases h1 : pyLower s = "stop"
    · rw [if_pos h1]
    · rw [if_neg h1, if_neg hs]
  · intro model_id data resp h
    exact (googleChatCompletion_ok model_id data resp h).2.2.2

/-- Witness for C6: the mapping evaluated on the uppercase provider
vocabulary and on an unrecognized code. -/
theorem C6_witness :
    geminiMapFinishReason (some "MAX_TOKENS") = "length" ∧
    geminiMapFinishReason (some "SAFETY") = "stop" := by
  exact ⟨C6_finish_reason_mapping.2.2.2.1 "MAX_TOKENS" rfl,
         C6_finish_reason_mapping.2.2.2.2.1 "SAFETY" (by decide)⟩

/-! ## Claim C7 — VerifyChallenge exact string equality -/

/-- Claim C7, as stated: an empty (or missing, via the `.get` default)
stored expected code fails verification regardless of the answer; a missing
or empty provided answer fails verification even when a non-empty expected
code is stored; when a non-empty expected code and a non-empty answer are
both present, `answerCorrect` holds exactly for case-sensitive, untrimmed
string equality; missing inputs are failed verifications, never errors (the
handler is total and returns a boolean). -/
theorem C7_verify_challenge_equality :
    (∀ e : VerifyEvent,
        (e.privateChallengeParameters.lookup "code").getD "" = "" →
        verifyAuthHandler e = false) ∧
    (∀ (e : VerifyEvent) (expected : String),
        e.privateChallengeParameters.lookup "code" = some expected →
        expected ≠ "" →
        e.challengeAnswer.getD "" = "" →
        verifyAuthHandler e = false) ∧
    (∀ (e : VerifyEvent) (expected answer : String),
        e.privateChallengeParameters.lookup "code" = some expected →
        expected ≠ "" →
        e.challengeAnswer = some answer →
        answer ≠ "" →
        (verifyAuthHandler e = true ↔ expected = answer)) := by
  refine ⟨?_, ?_, ?_⟩
  · intro e he
    unfold verifyAuthHandler
    simp [he]
  · intro e expected hcode hexp hans
    unfold verifyAuthHandler
    rw [hcode]
    simp only [Option.getD_some]
    rw [if_neg hexp, if_pos hans]
  · intro e expected answer hcode hexp hans hansne
    unfold verifyAuthHandler
    rw [hcode, hans]
    simp only [Option.getD_some]
    rw [if_neg hexp, if_neg hansne]
    simp

/-- Witness for C7: a matching six-digit code verifies, a case-mismatched
code does not, an event with no stored code fails, and a stored code with a
missing answer fails. -/
theorem C7_witness :
    verifyAuthHandler
      { privateChallengeParameters := [("code", "123456")],
        challengeAnswer := some "123456" } = true ∧
    verifyAuthHandler
      { privateChallengeParameters := [("code", "abc")],
        challengeAnswer := some "ABC" } = false ∧
    verifyAuthHandler
      { privateChallengeParameters := [], challengeAnswer := some "123456" } =
      false ∧
    verifyAuthHandler
      { privateChallengeParameters := [("code", "123456")],
        challengeAnswer := none } = false := by
  refine ⟨?_, ?_, ?_, ?_⟩
  · exact (C7_verify_challenge_equality.2.2
      { privateChallengeParameters := [("code", "123456")],
        challengeAnswer := some "123456" }
      "123456" "123456" rfl (by decide) rfl (by decide)).mpr rfl
  · have h := C7_verify_challenge_equality.2.2
      { privateChallengeParameters := [("code", "abc")],
        challengeAnswer := some "ABC" }
      "abc" "ABC" rfl (by decide) rfl (by decide)
    cases hb : verifyAuthHandler
      { privateChallengeParameters := [("code", "abc")],
        challengeAnswer := some "ABC" } with
    | false => rfl
    | true => exact absurd (h.mp hb) (by decide)
  · exact C7_verify_challenge_equality.1
      { privateChallengeParameters := [], challengeAnswer := some "123456" }
      (by decide)
  · exact C7_verify_challenge_equality.2.1
      { privateChallengeParameters := [("code", "123456")],
        challengeAnswer := none }
      "123456" rfl (by decide) rfl

/-! ## Claim C8 — DefineChallenge state machine -/

/-- Claim C8, as stated: with no prior session entries the handler starts a
`CUSTOM_CHALLENGE` round with `issueTokens=false` and
`failAuthentication=false`; whenever the session contains an entry whose
`challengeName` is `CUSTOM_CHALLENGE` with `challengeResult=true`, the
handler answers `issueTokens=true`. -/
theorem C8_define_challenge_transitions :
    defineAuthHandler [] =
      { challengeName := some "CUSTOM_CHALLENGE", issueTokens := false,
        failAuthentication := false } ∧
    (∀ (session : List SessionEntry) (s : SessionEntry),
        s ∈ session →
        s.challengeName = some "CUSTOM_CHALLENGE" →
        s.challengeResult = some true →
        (defineAuthHandler session).issueTokens = true) := by
  constructor
  · rfl
  · intro session s hmem hname hres
    unfold defineAuthHandler
    have hany : session.any isSuccessfulCustomChallenge = true :=
      List.any_eq_true.mpr
        ⟨s, hmem, by simp [isSuccessfulCustomChallenge, hname, hres]⟩
    rw [hany]
    rfl

/-- Witness for C8: a session holding one successful custom-challenge entry
issues tokens. -/
theorem C8_witness :
    (defineAuthHandler
      [{ challengeName := some "CUSTOM_CHALLENGE",
         challengeResult := some true }]).issueTokens = true := by
  exact C8_define_challenge_transitions.2
    [{ challengeName := some "CUSTOM_CHALLENGE", challengeResult := some true }]
    { challengeName := some "CUSTOM_CHALLENGE", challengeResult := some true }
    (List.mem_singleton.mpr rfl) rfl rfl

/-! ## Claim C4 — request-shape validation before dispatch -/

/-- Claim C4 counterexample: a request with an empty message list (and
in-bounds `max_tokens` and `temperature`) passes pydantic validation — the
`messages` field has no non-empty constraint — and is dispatched to the
resolved adapter instead of being answered with a client error. -/
theorem C4_counterexample :
    handleChatCompletion (fun _ => some 0)
      { messages := [], model_id := "gpt-4o", max_tokens := 1,
        temperature := 1, stream := false } =
      GatewayOutcome.dispatched 0
        { messages := [], model_id := "gpt-4o", max_tokens := 1,
          temperature := 1, stream := false } := by
  rfl

/-- Claim C4, amended: the `max_tokens` bounds (within `[1, 8192]`) and the
`temperature` bounds (within `[0, 2]`) are enforced before dispatch — a
violating request is answered with a validation client error and every
dispatched request satisfies the bounds — but the non-empty message list is
not enforced anywhere: an empty message list is forwarded to the adapter. -/
theorem C4_bounds_enforced_before_dispatch :
    (∀ (resolve : String → Option Nat) (raw : RawChatCompletionRequest),
        (raw.max_tokens < 1 ∨ raw.max_tokens > 8192 ∨
         raw.temperature < 0 ∨ raw.temperature > 2) →
        ∃ e, handleChatCompletion resolve raw = GatewayOutcome.validationFault e) ∧
    (∀ (resolve : String → Option Nat) (raw : RawChatCompletionRequest)
        (a : Nat) (req : ChatRequest),
        handleChatCompletion resolve raw = GatewayOutcome.dispatched a req →
        1 ≤ req.max_tokens ∧ req.max_tokens ≤ 8192 ∧
          0 ≤ req.temperature ∧ req.temperature ≤ 2) := by
  constructor
  · intro resolve raw hviol
    cases hv : validateChatCompletionRequest raw with
    | error e => exact ⟨e, by unfold handleChatCompletion; rw [hv]⟩
    | ok r =>
      obtain ⟨-, h1, h2, h3, h4⟩ := validateChatCompletionRequest_ok raw r hv
      rcases hviol with h | h | h | h
      · omega
      · omega
      · exact absurd h (not_lt.mpr h3)
      · exact absurd h (not_lt.mpr h4)
  · intro resolve raw a req h
    obtain ⟨-, hmt, htemp, h1, h2, h3, h4⟩ :=
      handleChatCompletion_dispatched resolve raw a req h
    exact ⟨by omega, by omega, by rw [htemp]; exact h3, by rw [htemp]; exact h4⟩

/-- Witness for C4: a zero `max_tokens` request is answered with a validation
fault, and a dispatched request satisfies both bounds. -/
theorem C4_witness :
    (∃ e, handleChatCompletion (fun _ => some 0)
        { messages := [{ role := "user", content := "hi" }],
          model_id := "gpt-4o", max_tokens := 0, temperature := 1,
          stream := false } =
        GatewayOutcome.validationFault e) ∧
    (1 ≤ ({ messages := [{ role := "user", content := "hi" }],
            model_id := "gpt-4o", max_tokens := 100, temperature := 1,
            stream := false } : ChatRequest).max_tokens ∧
      ({ messages := [{ role := "user", content := "hi" }],
         model_id := "gpt-4o", max_tokens := 100, temperature := 1,
         stream := false } : ChatRequest).max_tokens ≤ 8192 ∧
      0 ≤ ({ messages := [{ role := "user", content := "hi" }],
             model_id := "gpt-4o", max_tokens := 100, temperature := 1,
             stream := false } : ChatRequest).temperature ∧
      ({ messages := [{ role := "user", content := "hi" }],
         model_id := "gpt-4o", max_tokens := 100, temperature := 1,
         stream := false } : ChatRequest).temperature ≤ 2) := by
  constructor
  · exact C4_bounds_enforced_before_dispatch.1 (fun _ => some 0)
      { messages := [{ role := "user", content := "hi" }],
        model_id := "gpt-4o", max_tokens := 0, temperature := 1,
        stream := false }
      (Or.inl (by decide))
  · exact C4_bounds_enforced_before_dispatch.2 (fun _ => some 0)
      { messages := [{ role := "user", content := "hi" }],
        model_id := "gpt-4o", max_tokens := 100, temperature := 1,
        stream := false }
      0
      { messages := [{ role := "user", content := "hi" }],
        model_id := "gpt-4o", max_tokens := 100, temperature := 1,
        stream := false }
      (by rfl)

/-! ## Claim C10 — implicit 8192 upper bound on max_tokens -/

/-- Claim C10, as stated: pydantic rejects every request whose `max_tokens`
exceeds 8192 with a validation client error, so every request the gateway
dispatches to an adapter carries `max_tokens` in `[1, 8192]`. -/
theorem C10_max_tokens_upper_bound :
    (∀ raw : RawChatCompletionRequest, raw.max_tokens > 8192 →
        validateChatCompletionRequest raw =
          Except.error ValidationFault.maxTokensTooLarge) ∧
    (∀ (resolve : String → Option Nat) (raw : RawChatCompletionRequest)
        (a : Nat) (req : ChatRequest),
        handleChatCompletion resolve raw = GatewayOutcome.dispatched a req →
        1 ≤ req.max_tokens ∧ req.max_tokens ≤ 8192) := by
  constructor
  · intro raw h
    unfold validateChatCompletionRequest
    rw [if_neg (by omega), if_pos h]
  · intro resolve raw a req h
    obtain ⟨-, hmt, -, h1, h2, -, -⟩ :=
      handleChatCompletion_dispatched resolve raw a req h
    exact ⟨by omega, by omega⟩

/-- Witness for C10: a request asking for 9000 tokens is rejected by
validation, and a dispatched request is within the bound. -/
theorem C10_witness :
    validateChatCompletionRequest
      { messages := [{ role := "user", content := "hi" }],
        model_id := "gpt-4o", max_tokens := 9000, temperature := 1,
        stream := false } =
      Except.error ValidationFault.maxTokensTooLarge ∧
    (1 ≤ ({ messages := [{ role := "user", content := "hi" }],
            model_id := "gpt-4o", max_tokens := 8192, temperature := 1,
            stream := false } : ChatRequest).max_tokens ∧
      ({ messages := [{ role := "user", content := "hi" }],
         model_id := "gpt-4o", max_tokens := 8192, temperature := 1,
         stream := false } : ChatRequest).max_tokens ≤ 8192) := by
  constructor
  · exact C10_max_tokens_upper_bound.1
      { messages := [{ role := "user", content := "hi" }],
        model_id := "gpt-4o", max_tokens := 9000, temperature := 1,
        stream := false }
      (by decide)
  · exact C10_max_tokens_upper_bound.2 (fun _ => some 1)
      { messages := [{ role := "user", content := "hi" }],
        model_id := "gpt-4o", max_tokens := 8192, temperature := 1,
        stream := false }
      1
      { messages := [{ role := "user", content := "hi" }],
        model_id := "gpt-4o", max_tokens := 8192, temperature := 1,
        stream := false }
      (by rfl)

/-! ## Claim C5 — Gemini missing content parts -/

/-- Claim C5 counterexample: a provider response whose candidate carries a
content object with a present-but-empty `parts` array raises a `ValueError`
(`No text content in Gemini API response`), so errors are not restricted to
responses with a wholly missing `content` or `candidates` object. -/
theorem C5_counterexample :
    googleChatCompletion "gemini-2.5-pro"
      { candidates := some
          [{ content := some { parts := some [] },
             finishReason := some "STOP" }],
        usageMetadata := none } =
      Except.error GeminiValueError.noTextInParts := by
  rfl

/-- Claim C5, amended: a candidate with a content object whose `parts` key is
missing yields a successful `ChatResponse` with empty string content; an
error is raised exactly when `candidates` is missing or empty, when the first
candidate lacks a `content` object, or when `parts` is present but empty or
its first element lacks a `text` key. -/
theorem C5_missing_parts_empty_content :
    (∀ (model_id : String) (data : GeminiResponse)
        (candidate : GeminiCandidate) (rest : List GeminiCandidate)
        (ct : GeminiContent),
        data.candidates = some (candidate :: rest) →
        candidate.content = some ct →
        ct.parts = none →
        googleChatCompletion model_id data =
          Except.ok
            { content := ""
              model_id := model_id
              usage := geminiExtractUsage data.usageMetadata
              finish_reason :=
                geminiMapFinishReason (geminiFirstFinishReason data) }) ∧
    (∀ (model_id : String) (data : GeminiResponse) (e : GeminiValueError),
        googleChatCompletion model_id data = Except.error e →
        data.candidates = none ∨ data.candidates = some [] ∨
        (∃ candidate rest, data.candidates = some (candidate :: rest) ∧
          (candidate.content = none ∨
           (∃ ct, candidate.content = some ct ∧
             (ct.parts = some [] ∨
              (∃ p ps, ct.parts = some (p :: ps) ∧ p.text = none)))))) := by
  constructor
  · intro model_id data candidate rest ct hcand hcontent hparts
    simp only [googleChatCompletion, geminiExtractContent, hcand, hcontent,
      hparts]
  · intro model_id data e h
    obtain ⟨cands, meta⟩ := data
    cases cands with
    | none => exact Or.inl rfl
    | some l =>
      cases l with
      | nil => exact Or.inr (Or.inl rfl)
      | cons c rest =>
        refine Or.inr (Or.inr ⟨c, rest, rfl, ?_⟩)
        obtain ⟨ct, fr⟩ := c
        cases ct with
        | none => exact Or.inl rfl
        | some ctv =>
          refine Or.inr ⟨ctv, rfl, ?_⟩
          obtain ⟨parts⟩ := ctv
          cases parts with
          | none =>
            simp [googleChatCompletion, geminiExtractContent] at h
          | some ps =>
            cases ps with
            | nil => exact Or.inl rfl
            | cons p pss =>
              refine Or.inr ⟨p, pss, rfl, ?_⟩
              obtain ⟨txt⟩ := p
              cases txt with
              | none => rfl
              | some t =>
                simp [googleChatCompletion, geminiExtractContent] at h

/-- Witness for C5: a candidate truncated to a content object without
`parts` (as Gemini produces under a `MAX_TOKENS` stop) yields empty content
and finish reason `length`, not an exception. -/
theorem C5_witness :
    googleChatCompletion "gemini-2.5-pro"
      { candidates := some
          [{ content := some { parts := none },
             finishReason := some "MAX_TOKENS" }],
        usageMetadata := none } =
      Except.ok
        { content := ""
          model_id := "gemini-2.5-pro"
          usage := []
          finish_reason := "length" } := by
  exact C5_missing_parts_empty_content.1 "gemini-2.5-pro"
    { candidates := some
        [{ content := some { parts := none },
           finishReason := some "MAX_TOKENS" }],
      usageMetadata := none }
    { content := some { parts := none }, finishReason := some "MAX_TOKENS" }
    [] { parts := none } rfl rfl rfl

/-! ## Claim C9 — usage accounting -/

/-- Claim C9 counterexample: a provider response reporting both
`promptTokenCount=1` and `candidatesTokenCount=2` but omitting
`totalTokenCount` produces a response whose `total_tokens` is 0, not
`1 + 2` — the adapter passes the provider total through instead of computing
the sum. -/
theorem C9_counterexample :
    googleChatCompletion "gemini-2.5-pro"
      { candidates := some
          [{ content := some { parts := some [{ text := some "hi" }] },
             finishReason := some "STOP" }],
        usageMetadata := some
          { promptTokenCount := some 1, candidatesTokenCount := some 2,
            totalTokenCount := none } } =
      Except.ok
        { content := "hi"
          model_id := "gemini-2.5-pro"
          usage := [("prompt_tokens", 1), ("completion_tokens", 2),
                    ("total_tokens", 0)]
          finish_reason := "stop" } ∧
    (routeUsage [("prompt_tokens", 1), ("completion_tokens", 2),
                 ("total_tokens", 0)]).total_tokens = 0 ∧
    (routeUsage [("prompt_tokens", 1), ("completion_tokens", 2),
                 ("total_tokens", 0)]).prompt_tokens +
      (routeUsage [("prompt_tokens", 1), ("completion_tokens", 2),
                   ("total_tokens", 0)]).completion_tokens = 3 ∧
    (0 : Int) ≠ 3 := by
  exact ⟨rfl, rfl, rfl, by decide⟩

/-- Claim C9, amended: when the provider omits the usage metadata block, all
three usage fields of the API response are 0; when the block is present each
field is the provider-reported count with a per-field default of 0 — in
particular `total_tokens` is the passed-through `totalTokenCount`, so the
additivity identity holds exactly when the provider itself reports an
additive total. -/
theorem C9_usage_accounting :
    (∀ (model_id : String) (data : GeminiResponse) (resp : ChatResponse),
        googleChatCompletion model_id data = Except.ok resp →
        data.usageMetadata = none →
        routeUsage resp.usage =
          { prompt_tokens := 0, completion_tokens := 0, total_tokens := 0 }) ∧
    (∀ (model_id : String) (data : GeminiResponse) (resp : ChatResponse)
        (m : GeminiUsageMetadata),
        googleChatCompletion model_id data = Except.ok resp →
        data.usageMetadata = some m →
        routeUsage resp.usage =
          { prompt_tokens := m.promptTokenCount.getD 0
            completion_tokens := m.candidatesTokenCount.getD 0
            total_tokens := m.totalTokenCount.getD 0 }) ∧
    (∀ (model_id : String) (data : GeminiResponse) (resp : ChatResponse)
        (m : GeminiUsageMetadata) (p c : Int),
        googleChatCompletion model_id data = Except.ok resp →
        data.usageMetadata = some m →
        m.promptTokenCount = some p →
        m.candidatesTokenCount = some c →
        m.totalTokenCount = some (p + c) →
        (routeUsage resp.usage).total_tokens =
          (routeUsage resp.usage).prompt_tokens +
            (routeUsage resp.usage).completion_tokens) := by
  refine ⟨?_, ?_, ?_⟩
  · intro model_id data resp h hmeta
    obtain ⟨-, -, husage, -⟩ := googleChatCompletion_ok model_id data resp h
    rw [husage, hmeta]
    rfl
  · intro model_id data resp m h hmeta
    obtain ⟨-, -, husage, -⟩ := googleChatCompletion_ok model_id data resp h
    rw [husage, hmeta]
    simp [geminiExtractUsage, routeUsage, List.lookup]
  · intro model_id data resp m p c h hmeta hp hc ht
    obtain ⟨-, -, husage, -⟩ := googleChatCompletion_ok model_id data resp h
    rw [husage, hmeta]
    simp [geminiExtractUsage, routeUsage, List.lookup, hp, hc, ht]

/-- Witness for C9: a response without a usage block yields all-zero usage,
and a response whose provider total is additive satisfies the sum
identity. -/
theorem C9_witness :
    routeUsage ({ content := "ok", model_id := "m", usage := [],
                  finish_reason := "stop" } : ChatResponse).usage =
      { prompt_tokens := 0, completion_tokens := 0, total_tokens := 0 } ∧
    (routeUsage ({ content := "ok", model_id := "m",
                   usage := [("prompt_tokens", 1), ("completion_tokens", 2),
                             ("total_tokens", 3)],
                   finish_reason := "stop" } : ChatResponse).usage).total_tokens =
      (routeUsage ({ content := "ok", model_id := "m",
                     usage := [("prompt_tokens", 1), ("completion_tokens", 2),
                               ("total_tokens", 3)],
                     finish_reason := "stop" } : ChatResponse).usage).prompt_tokens +
        (routeUsage ({ content := "ok", model_id := "m",
                       usage := [("prompt_tokens", 1), ("completion_tokens", 2),
                                 ("total_tokens", 3)],
                       finish_reason := "stop" } : ChatResponse).usage).completion_tokens := by
  constructor
  · exact C9_usage_accounting.1 "m"
      { candidates := some
          [{ content := some { parts := some [{ text := some "ok" }] },
             finishReason := none }],
        usageMetadata := none }
      { content := "ok", model_id := "m", usage := [], finish_reason := "stop" }
      rfl rfl
  · exact C9_usage_accounting.2.2 "m"
      { candidates := some
          [{ content := some { parts := some [{ text := some "ok" }] },
             finishReason := none }],
        usageMetadata := some
          { promptTokenCount := some 1, candidatesTokenCount := some 2,
            totalTokenCount := some 3 } }
      { content := "ok", model_id := "m",
        usage := [("prompt_tokens", 1), ("completion_tokens", 2),
                  ("total_tokens", 3)],
        finish_reason := "stop" }
      { promptTokenCount := some 1, candidatesTokenCount := some 2,
        totalTokenCount := some 3 }
      1 2 rfl rfl rfl rfl rfl

/-! ## Claim C3 — blacklist enforcement on verify -/

/-- Claim C3: the code bug evaluated.  A token added to the blacklist by
logout, whose signature, expiry, audience and issuer are all valid, is
accepted by `_authenticate_request` — the middleware never consults
`token_blacklist` — while an expired token and a token signed with the wrong
key are both rejected with the single generic `AuthenticationError` kind. -/
theorem C3_blacklisted_token_accepted :
    "tok-1" ∈ logoutBlacklist [] "tok-1" ∧
    authenticateRequest "server-secret" 1000 (logoutBlacklist [] "tok-1")
      { raw := "tok-1", signingKey := "server-secret", exp := 2000,
        aud := "chatbot-api", iss := "chatbot-wrapper-demo",
        sub := "user-1", email := "u@example.edu", role := "student" } =
      Except.ok { user_id := "user-1", email := "u@example.edu",
                  role := "student" } ∧
    authenticateRequest "server-secret" 1000 []
      { raw := "tok-expired", signingKey := "server-secret", exp := 500,
        aud := "chatbot-api", iss := "chatbot-wrapper-demo",
        sub := "user-1", email := "u@example.edu", role := "student" } =
      Except.error AuthFailure.authenticationError ∧
    authenticateRequest "server-secret" 1000 []
      { raw := "tok-forged", signingKey := "other-secret", exp := 2000,
        aud := "chatbot-api", iss := "chatbot-wrapper-demo",
        sub := "user-1", email := "u@example.edu", role := "student" } =
      Except.error AuthFailure.authenticationError := by
  exact ⟨by decide, rfl, rfl, rfl⟩

/-! ## Claim C2 — adapter factory resolution -/

/-- A call of `get_adapter` that returned an adapter leaves that adapter
cached under the cache key of the resolved model configuration. -/
theorem getAdapter_cached (registry : List ModelConfig) (st st2 : FactoryState)
    (m : String) (cfg : ModelConfig) (a : Nat)
    (hm : getModel registry m = some cfg)
    (h : getAdapter registry st m = Except.ok (some a, st2)) :
    st2.adapters.lookup (adapterKey cfg) = some a := by
  unfold getAdapter at h
  rw [hm] at h
  dsimp only at h
  split at h
  · simp at h
  · split at h
    · rename_i a0 hl
      simp only [Except.ok.injEq, Prod.mk.injEq, Option.some.injEq] at h
      obtain ⟨ha, hst⟩ := h
      rw [← hst, hl, ha]
    · rename_i hl
      split at h
      · split at h
        · simp at h
        · simp only [cacheNewAdapter, Except.ok.injEq, Prod.mk.injEq,
            Option.some.injEq] at h
          obtain ⟨ha, hst⟩ := h
          rw [← hst]
          simp [List.lookup, ha]
      · simp at h
      · split at h
        · simp at h
        · simp only [cacheNewAdapter, Except.ok.injEq, Prod.mk.injEq,
            Option.some.injEq] at h
          obtain ⟨ha, hst⟩ := h
          rw [← hst]
          simp [List.lookup, ha]

/-- Claim C2 counterexample: `get_adapter` can raise.  For an enabled
OpenAI-compatible model whose `api_base` is `None`, the factory calls
`OpenAIAdapter(...)` outside any `try`/`except`; the constructor passes the
`None` through `config.get("api_base", ...)` (the key is present) into
`httpx.AsyncClient(base_url=None)`, which raises `TypeError`, and the
exception propagates out of `get_adapter` instead of being reported as
absent. -/
theorem C2_counterexample :
    getAdapter
      [{ name := "Llama 3.1 8B Instruct",
         model_id := "meta-llama/Meta-Llama-3.1-8B-Instruct",
         client_type := ClientType.openai_compatible, api_base := none,
         api_key_env := none, enabled := true, provider := "Local vLLM",
         is_local := true }]
      { adapters := [], nextId := 0 }
      "meta-llama/Meta-Llama-3.1-8B-Instruct" =
      Except.error PyException.typeError := by
  rfl

/-- Claim C2, amended: a second resolution for a model sharing the provider
and `api_base` of an already-resolved model returns the identical cached
adapter instance and leaves the cache unchanged; an unknown and a disabled
`model_id` both resolve to absent without an exception; but a construction
failure is caught (and reported as absent) only in the Google branch — in
the OpenAI-compatible branch a construction failure (absent `api_base`)
propagates out of `get_adapter` as an exception. -/
theorem C2_adapter_factory_resolution :
    (∀ (registry : List ModelConfig) (st st2 : FactoryState)
        (m1 m2 : String) (cfg1 cfg2 : ModelConfig) (a : Nat),
        getModel registry m1 = some cfg1 →
        getModel registry m2 = some cfg2 →
        cfg2.enabled = true →
        cfg1.provider = cfg2.provider →
        cfg1.api_base = cfg2.api_base →
        getAdapter registry st m1 = Except.ok (some a, st2) →
        getAdapter registry st2 m2 = Except.ok (some a, st2)) ∧
    (∀ (registry : List ModelConfig) (st : FactoryState) (m : String),
        getModel registry m = none →
        getAdapter registry st m = Except.ok (none, st)) ∧
    (∀ (registry : List ModelConfig) (st : FactoryState) (m : String)
        (cfg : ModelConfig),
        getModel registry m = some cfg →
        cfg.enabled = false →
        getAdapter registry st m = Except.ok (none, st)) ∧
    (∀ (registry : List ModelConfig) (st : FactoryState) (m : String)
        (cfg : ModelConfig),
        getModel registry m = some cfg →
        cfg.enabled = true →
        cfg.client_type = ClientType.openai_compatible →
        cfg.api_base = none →
        st.adapters.lookup (adapterKey cfg) = none →
        getAdapter registry st m = Except.error PyException.typeError) := by
  refine ⟨?_, ?_, ?_, ?_⟩
  · intro registry st st2 m1 m2 cfg1 cfg2 a hm1 hm2 hen hprov hbase h
    have hkey : adapterKey cfg1 = adapterKey cfg2 := by
      unfold adapterKey
      rw [hprov, hbase]
    have hlook : st2.adapters.lookup (adapterKey cfg2) = some a := by
      rw [← hkey]
      exact getAdapter_cached registry st st2 m1 cfg1 a hm1 h
    unfold getAdapter
    rw [hm2]
    dsimp only
    rw [if_neg (by simp [hen]), hlook]
  · intro registry st m hm
    unfold getAdapter
    rw [hm]
  · intro registry st m cfg hm hen
    unfold getAdapter
    rw [hm]
    dsimp only
    rw [if_pos hen]
  · intro registry st m cfg hm hen hct hbase hlook
    unfold getAdapter
    rw [hm]
    dsimp only
    rw [if_neg (by simp [hen]), hlook, hct]
    dsimp only
    rw [hbase]
    rfl

/-- Witness for C2: two local vLLM models sharing one endpoint resolve to the
same adapter instance; an unknown model and a disabled model resolve to
absent. -/
theorem C2_witness :
    getAdapter
      [{ name := "Llama 3.1 8B Instruct",
         model_id := "meta-llama/Meta-Llama-3.1-8B-Instruct",
         client_type := ClientType.openai_compatible,
         api_base := some "http://localhost:8001/v1", api_key_env := none,
         enabled := true, provider := "Local vLLM", is_local := true },
       { name := "Mistral Nemo 12B",
         model_id := "mistralai/Mistral-Nemo-Instruct-2407",
         client_type := ClientType.openai_compatible,
         api_base := some "http://localhost:8001/v1", api_key_env := none,
         enabled := true, provider := "Local vLLM", is_local := true }]
      { adapters := [("Local vLLM:http://localhost:8001/v1", 0)], nextId := 1 }
      "mistralai/Mistral-Nemo-Instruct-2407" =
      Except.ok (some 0,
        { adapters := [("Local vLLM:http://localhost:8001/v1", 0)],
          nextId := 1 }) ∧
    getAdapter [] { adapters := [], nextId := 0 } "gpt-4o" =
      Except.ok (none, { adapters := [], nextId := 0 }) ∧
    getAdapter
      [{ name := "GPT-4o", model_id := "gpt-4o",
         client_type := ClientType.openai_compatible,
         api_base := some "https://api.openai.com/v1",
         api_key_env := some "OPENAI_API_KEY", enabled := false,
         provider := "OpenAI", is_local := false }]
      { adapters := [], nextId := 0 } "gpt-4o" =
      Except.ok (none, { adapters := [], nextId := 0 }) := by
  refine ⟨?_, ?_, ?_⟩
  · exact C2_adapter_factory_resolution.1
      [{ name := "Llama 3.1 8B Instruct",
         model_id := "meta-llama/Meta-Llama-3.1-8B-Instruct",
         client_type := ClientType.openai_compatible,
         api_base := some "http://localhost:8001/v1", api_key_env := none,
         enabled := true, provider := "Local vLLM", is_local := true },
       { name := "Mistral Nemo 12B",
         model_id := "mistralai/Mistral-Nemo-Instruct-2407",
         client_type := ClientType.openai_compatible,
         api_base := some "http://localhost:8001/v1", api_key_env := none,
         enabled := true, provider := "Local vLLM", is_local := true }]
      { adapters := [], nextId := 0 }
      { adapters := [("Local vLLM:http://localhost:8001/v1", 0)], nextId := 1 }
      "meta-llama/Meta-Llama-3.1-8B-Instruct"
      "mistralai/Mistral-Nemo-Instruct-2407"
      { name := "Llama 3.1 8B Instruct",
        model_id := "meta-llama/Meta-Llama-3.1-8B-Instruct",
        client_type := ClientType.openai_compatible,
        api_base := some "http://localhost:8001/v1", api_key_env := none,
        enabled := true, provider := "Local vLLM", is_local := true }
      { name := "Mistral Nemo 12B",
        model_id := "mistralai/Mistral-Nemo-Instruct-2407",
        client_type := ClientType.openai_compatible,
        api_base := some "http://localhost:8001/v1", api_key_env := none,
        enabled := true, provider := "Local vLLM", is_local := true }
      0 (by rfl) (by rfl) rfl rfl rfl (by rfl)
  · exact C2_adapter_factory_resolution.2.1 [] { adapters := [], nextId := 0 }
      "gpt-4o" rfl
  · exact C2_adapter_factory_resolution.2.2.1
      [{ name := "GPT-4o", model_id := "gpt-4o",
         client_type := ClientType.openai_compatible,
         api_base := some "https://api.openai.com/v1",
         api_key_env := some "OPENAI_API_KEY", enabled := false,
         provider := "OpenAI", is_local := false }]
      { adapters := [], nextId := 0 } "gpt-4o"
      { name := "GPT-4o", model_id := "gpt-4o",
        client_type := ClientType.openai_compatible,
        api_base := some "https://api.openai.com/v1",
        api_key_env := some "OPENAI_API_KEY", enabled := false,
        provider := "OpenAI", is_local := false }
      (by rfl) rfl

end ChatbotApi
